import Mathlib

/-!
Shallow embedding of the dns-proxy resolution pipeline.

The definitions below are translated from the Python sources:
  src/models/upstream_service.py   (circuit breaker state machine)
  src/services/upstream_service.py (DoH client: admission, retries, backoff)
  src/models/cache_entry.py        (TTL arithmetic of cache entries)
  src/services/dns_cache_service.py (cache get/set over a cachetools TTLCache)
  src/services/dns_proxy_service.py (resolver orchestration, statistics,
                                     rate limiter, exception normalisation)

Wall-clock instants are modelled as integers counting seconds; Python
datetime subtraction becomes integer subtraction.  Mutation of the Python
objects becomes explicit state passing.  Code paths that raise exceptions
return values of Except or carry the raised exception in the result.
-/

namespace DnsProxy

/-- Circuit breaker states, from CircuitBreakerState in
src/models/upstream_service.py. -/
inductive CircuitBreakerState where
  | CLOSED
  | OPEN
  | HALF_OPEN
deriving DecidableEq, Repr

/-- The UpstreamService dataclass of src/models/upstream_service.py.
Timestamps are integers (seconds); None becomes Option. -/
structure UpstreamService where
  service_url : String
  timeout_connect : Int
  timeout_read : Int
  retry_attempts : Nat
  last_successful_request : Option Int := none
  consecutive_failures : Nat := 0
  circuit_breaker_state : CircuitBreakerState := CircuitBreakerState.CLOSED
  circuit_breaker_open_time : Option Int := none
  circuit_breaker_timeout : Int := 60
  failure_threshold : Nat := 5
deriving DecidableEq, Repr

/-- UpstreamService.record_success: reset the failure count, stamp the
success time and close the circuit breaker if it is not already closed. -/
def record_success (current_time : Int) (s : UpstreamService) : UpstreamService :=
  let s :=
    { s with last_successful_request := some current_time, consecutive_failures := 0 }
  if s.circuit_breaker_state ≠ CircuitBreakerState.CLOSED then
    { s with circuit_breaker_state := CircuitBreakerState.CLOSED,
             circuit_breaker_open_time := none }
  else s

/-- UpstreamService.record_failure: increment the failure count and open the
circuit breaker when the threshold is reached while the state is CLOSED. -/
def record_failure (current_time : Int) (s : UpstreamService) : UpstreamService :=
  let s := { s with consecutive_failures := s.consecutive_failures + 1 }
  if s.failure_threshold ≤ s.consecutive_failures ∧
      s.circuit_breaker_state = CircuitBreakerState.CLOSED then
    { s with circuit_breaker_state := CircuitBreakerState.OPEN,
             circuit_breaker_open_time := some current_time }
  else s

/-- UpstreamService.should_allow_request: admission decision of the circuit
breaker, together with the (possibly OPEN to HALF_OPEN transitioned) state. -/
def should_allow_request (current_time : Int) (s : UpstreamService) :
    Bool × UpstreamService :=
  match s.circuit_breaker_state with
  | CircuitBreakerState.CLOSED => (true, s)
  | CircuitBreakerState.OPEN =>
    match s.circuit_breaker_open_time with
    | some ot =>
      if ot + s.circuit_breaker_timeout ≤ current_time then
        (true, { s with circuit_breaker_state := CircuitBreakerState.HALF_OPEN })
      else (false, s)
    | none => (false, s)
  | CircuitBreakerState.HALF_OPEN => (true, s)

/-- Folding record_failure over a list of failure times, in order. -/
def foldFailures (ts : List Int) (s : UpstreamService) : UpstreamService :=
  List.foldl (fun a t => record_failure t a) s ts

/-- DoH answer record as parsed from the upstream JSON (an element of the
Answer array).  TTL is optional because the Python code checks that the key
is present and holds a non-negative int; any other shape counts as absent. -/
structure Answer where
  name : String
  atype : Int
  TTL : Option Int
  data : String
deriving DecidableEq, Repr

/-- The DNSResponse dataclass of src/models/dns_response.py (the fields the
resolution pipeline reads; response_time in whole milliseconds). -/
structure DNSResponse where
  query_name : String
  query_type : String
  answers : List Answer
  response_size : Int
  ttl : Int
  upstream_source : String
  response_time : Int
deriving DecidableEq, Repr

/-- Errors raised by UpstreamDoHService._execute_single_request. -/
inductive UpstreamError where
  | timeoutErr
  | connectionErr
  | serviceErr (status : Option Int)
deriving DecidableEq, Repr

/-- UpstreamDoHService._extract_ttl: minimum TTL over the answer entries that
carry a non-negative integer TTL; 300 when the list is empty or no entry has
a usable TTL. -/
def extract_ttl (answers : List Answer) : Int :=
  if answers.isEmpty then 300
  else
    let usable := answers.filterMap fun a =>
      a.TTL.bind fun v => if 0 ≤ v then some v else none
    match usable with
    | [] => 300
    | v :: vs => List.foldl min v vs

/-- UpstreamDoHService._parse_response, restricted to the fields that matter
downstream: the response built from the extracted Answer array, with ttl
derived by extract_ttl and source marked upstream. -/
def parse_response (q_name q_type : String) (answers : List Answer)
    (response_size response_time : Int) : DNSResponse :=
  { query_name := q_name, query_type := q_type, answers := answers,
    response_size := response_size, ttl := extract_ttl answers,
    upstream_source := "upstream", response_time := response_time }

deriving instance DecidableEq for Except

/-- Result of one run of UpstreamDoHService._execute_with_retries:
the returned response or the last raised error, the upstream state after the
success/failure recordings, the number of HTTP attempts performed, and the
list of backoff sleeps (seconds) in order. -/
structure ExecResult where
  result : Except UpstreamError DNSResponse
  state : UpstreamService
  attemptsMade : Nat
  sleeps : List Nat
deriving DecidableEq, Repr

/-- The retry loop of UpstreamDoHService._execute_with_retries.
attempts i is the outcome of the i-th HTTP attempt (the network is a
parameter of the embedding); retriable is is_retriable_error; times i is the
clock reading when the i-th outcome is recorded; fuelAfter is the number of
retries still allowed after the current attempt, so the top-level call passes
retry_attempts and performs at most retry_attempts + 1 attempts.  A failed
attempt records a failure; a retriable failure with budget left sleeps
min(2 ^ i, 10) and retries; otherwise the last error is raised. -/
def execLoop (attempts : Nat → Except UpstreamError DNSResponse)
    (retriable : UpstreamError → Bool) (times : Nat → Int) :
    Nat → Nat → UpstreamService → ExecResult
  | i, 0, s =>
    match attempts i with
    | Except.ok r => ⟨Except.ok r, record_success (times i) s, 1, []⟩
    | Except.error e => ⟨Except.error e, record_failure (times i) s, 1, []⟩
  | i, fa + 1, s =>
    match attempts i with
    | Except.ok r => ⟨Except.ok r, record_success (times i) s, 1, []⟩
    | Except.error e =>
      let s1 := record_failure (times i) s
      if retriable e then
        let rest := execLoop attempts retriable times (i + 1) fa s1
        ⟨rest.result, rest.state, rest.attemptsMade + 1,
          min (2 ^ i) 10 :: rest.sleeps⟩
      else ⟨Except.error e, s1, 1, []⟩

/-- UpstreamDoHService._execute_with_retries: first attempt plus up to
retry_attempts retries. -/
def execute_with_retries (attempts : Nat → Except UpstreamError DNSResponse)
    (retriable : UpstreamError → Bool) (times : Nat → Int)
    (s : UpstreamService) : ExecResult :=
  execLoop attempts retriable times 0 s.retry_attempts s

/-- Errors raised by UpstreamDoHService.query. -/
inductive QueryError where
  | circuitBreakerOpenErr (failure_count : Nat)
  | upstreamErr (e : UpstreamError)
deriving DecidableEq, Repr

/-- Outcome of UpstreamDoHService.query: result, final upstream state,
number of HTTP attempts performed (0 when blocked by the breaker) and the
backoff sleeps. -/
structure QueryOutcome where
  result : Except QueryError DNSResponse
  state : UpstreamService
  httpAttempts : Nat
  sleeps : List Nat
deriving DecidableEq, Repr

/-- UpstreamDoHService.query: under the upstream lock, check circuit-breaker
admission before any I/O; when blocked raise CircuitBreakerOpenError without
touching the network, otherwise run the retry loop. -/
def query (attempts : Nat → Except UpstreamError DNSResponse)
    (retriable : UpstreamError → Bool) (times : Nat → Int)
    (current_time : Int) (s : UpstreamService) : QueryOutcome :=
  match should_allow_request current_time s with
  | (true, s1) =>
    let r := execute_with_retries attempts retriable times s1
    ⟨Except.mapError QueryError.upstreamErr r.result, r.state, r.attemptsMade, r.sleeps⟩
  | (false, s1) =>
    ⟨Except.error (QueryError.circuitBreakerOpenErr s1.consecutive_failures),
      s1, 0, []⟩

/-- The times of the failures recorded by n consecutive attempts starting at
attempt index i. -/
def timesFrom (times : Nat → Int) : Nat → Nat → List Int
  | _, 0 => []
  | i, n + 1 => times i :: timesFrom times (i + 1) n

/-- Association list lookup keyed by decidable equality (the Python dict /
TTLCache mapping, observed through key lookup). -/
def alistFind {α β : Type} [DecidableEq α] (k : α) : List (α × β) → Option β
  | [] => none
  | (k', v) :: rest => if k' = k then some v else alistFind k rest

/-- Remove every binding of a key (Python del / dict overwrite). -/
def alistErase {α β : Type} [DecidableEq α] (k : α) : List (α × β) → List (α × β)
  | [] => []
  | (k', v) :: rest =>
    if k' = k then alistErase k rest else (k', v) :: alistErase k rest

/-- Insert or overwrite a binding. -/
def alistInsert {α β : Type} [DecidableEq α] (k : α) (v : β)
    (l : List (α × β)) : List (α × β) :=
  (k, v) :: alistErase k l

/-- The payload that DNSCacheService._response_to_cache_data stores for a
response (the fields read back by _cache_entry_to_response; the ISO
timestamp string is dropped). -/
structure ResponseData where
  answers : List Answer
  response_size : Int
  upstream_source : String
  response_time : Int
deriving DecidableEq, Repr

/-- The CacheEntry dataclass of src/models/cache_entry.py. -/
structure CacheEntry where
  cache_key : String × String
  response_data : ResponseData
  stored_at : Int
  expires_at : Int
  hit_count : Nat
  last_accessed : Int
deriving DecidableEq, Repr

/-- CacheEntry.is_expired: current_time at or past expires_at. -/
def CacheEntry.is_expired (e : CacheEntry) (current_time : Int) : Bool :=
  e.expires_at ≤ current_time

/-- CacheEntry.get_remaining_ttl: max(0, expires_at - now). -/
def CacheEntry.get_remaining_ttl (e : CacheEntry) (current_time : Int) : Int :=
  max 0 (e.expires_at - current_time)

/-- CacheEntry.get_ttl_seconds: the original TTL the entry was stored with. -/
def CacheEntry.get_ttl_seconds (e : CacheEntry) : Int :=
  e.expires_at - e.stored_at

/-- CacheEntry.access: bump hit_count and stamp last_accessed. -/
def CacheEntry.access (e : CacheEntry) (current_time : Int) : CacheEntry :=
  { e with hit_count := e.hit_count + 1, last_accessed := current_time }

/-- CacheEntry.create: stored_at now, expires_at now + ttl. -/
def CacheEntry.create (q_name q_type : String) (response_data : ResponseData)
    (ttl_seconds : Int) (current_time : Int) : CacheEntry :=
  { cache_key := (q_name, q_type), response_data := response_data,
    stored_at := current_time, expires_at := current_time + ttl_seconds,
    hit_count := 0, last_accessed := current_time }

/-- One slot of the underlying cachetools TTLCache: the stored CacheEntry
plus the slot expiry the TTLCache itself enforces (insertion time plus the
cache-wide default_ttl).  A slot whose expiry has passed is invisible to
lookups, exactly as TTLCache treats expired links as missing. -/
structure TTLSlot where
  slot_expires : Int
  entry : CacheEntry
deriving DecidableEq, Repr

/-- State of DNSCacheService: the TTLCache contents and the statistics
counters.  LRU eviction at max_size capacity is not exercised by any theorem
below (all runs stay far below capacity) and is not modelled. -/
structure CacheState where
  max_size : Nat
  default_ttl : Int
  entries : List ((String × String) × TTLSlot)
  hits : Nat
  misses : Nat
  sets : Nat
  deletes : Nat
  expired : Nat
  evicted : Nat
deriving DecidableEq, Repr

/-- DNSCacheService.__init__ with the given max_size and the default_ttl of
300 used by DNSProxyService (which never overrides it). -/
def CacheState.init (max_size : Nat) : CacheState :=
  { max_size := max_size, default_ttl := 300, entries := [],
    hits := 0, misses := 0, sets := 0, deletes := 0, expired := 0, evicted := 0 }

/-- Python str.lower(), character by character. -/
def lowerString (s : String) : String := String.mk (s.data.map Char.toLower)

/-- Python str.upper(), character by character. -/
def upperString (s : String) : String := String.mk (s.data.map Char.toUpper)

/-- DNSCacheService._create_cache_key: lowercase name, uppercase type. -/
def create_cache_key (query_name query_type : String) : String × String :=
  (lowerString query_name, upperString query_type)

/-- The TTLCache read self._cache.get(key): a binding is returned only while
its slot expiry lies strictly in the future. -/
def ttlcache_get (current_time : Int) (entries : List ((String × String) × TTLSlot))
    (k : String × String) : Option TTLSlot :=
  match alistFind k entries with
  | none => none
  | some slot => if current_time < slot.slot_expires then some slot else none

/-- DNSCacheService._cache_entry_to_response: rebuild a DNSResponse from a
cache entry, with the remaining TTL and source marked cache. -/
def cache_entry_to_response (current_time : Int) (e : CacheEntry) : DNSResponse :=
  { query_name := e.cache_key.1, query_type := e.cache_key.2,
    answers := e.response_data.answers,
    response_size := e.response_data.response_size,
    ttl := e.get_remaining_ttl current_time,
    upstream_source := "cache",
    response_time := e.response_data.response_time }

/-- Result of DNSCacheService.get: the optional response and the cache state
afterwards. -/
structure GetResult where
  response : Option DNSResponse
  state : CacheState
deriving DecidableEq, Repr

/-- DNSCacheService.get, under the cache lock.  The ValidationError path for
empty name/type arguments is outside this embedding; the theorems below only
instantiate it on validated queries.  Absent or TTLCache-expired slot: count
a miss.  Present but entry-expired (the double-check): delete, count expired
and a miss.  Otherwise: record the access and return the rebuilt response,
counting a hit. -/
def cacheGet (current_time : Int) (query_name query_type : String)
    (st : CacheState) : GetResult :=
  let k := create_cache_key query_name query_type
  match ttlcache_get current_time st.entries k with
  | none => ⟨none, { st with misses := st.misses + 1 }⟩
  | some slot =>
    if slot.entry.is_expired current_time then
      let st1 := { st with entries := alistErase k st.entries, expired := st.expired + 1, misses := st.misses + 1 }
      ⟨none, st1⟩
    else
      let e := slot.entry.access current_time
      let st1 := { st with entries := alistInsert k { slot with entry := e } st.entries, hits := st.hits + 1 }
      ⟨some (cache_entry_to_response current_time e), st1⟩

/-- DNSCacheService._response_to_cache_data. -/
def response_to_cache_data (r : DNSResponse) : ResponseData :=
  { answers := r.answers, response_size := r.response_size,
    upstream_source := r.upstream_source, response_time := r.response_time }

/-- DNSCacheService.set, under the cache lock: responses with ttl at most 0
are not cached; otherwise a fresh CacheEntry is stored under the normalized
key in a TTLCache slot that itself expires default_ttl seconds after the
insertion, and the sets counter (plus the eviction bookkeeping for an
overwritten binding) is updated. -/
def cacheSet (current_time : Int) (r : DNSResponse) (st : CacheState) : CacheState :=
  if r.ttl ≤ 0 then st
  else
    let k := create_cache_key r.query_name r.query_type
    let e := CacheEntry.create r.query_name r.query_type
      (response_to_cache_data r) r.ttl current_time
    let slot : TTLSlot := { slot_expires := current_time + st.default_ttl, entry := e }
    let replaced := (alistFind k st.entries).isSome
    let newEvicted := st.evicted + (if replaced then 1 else 0)
    { st with entries := alistInsert k slot st.entries, sets := st.sets + 1, evicted := newEvicted }

/-- Per-client window data of the DNSProxyService._rate_limiter dict:
the aligned window start and the request count in that window. -/
structure RateWindow where
  window : Int
  count : Nat
deriving DecidableEq, Repr

/-- The keyword arguments RateLimitExceededError is raised with in
DNSProxyService._check_rate_limit. -/
structure RateLimitExceeded where
  client_ip : String
  limit : Nat
  window_seconds : Int
  retry_after : Int
deriving DecidableEq, Repr

/-- current_time.replace(second=0, microsecond=0): the start of the current
calendar minute. -/
def windowStart (current_time : Int) : Int :=
  current_time - current_time % 60

/-- DNSProxyService._check_rate_limit.  The Python dict is mutated in place,
so the default insertion and the window reset persist even when the call
then raises; the raised error carries the hard-coded retry_after of 60.
Returns the raised error (if any) and the rate-limiter map afterwards. -/
def check_rate_limit (limit : Nat) (current_time : Int) (client_ip : String)
    (rl : List (String × RateWindow)) :
    Option RateLimitExceeded × List (String × RateWindow) :=
  let w := windowStart current_time
  let rl := if (alistFind client_ip rl).isSome then rl
            else alistInsert client_ip { window := w, count := 0 } rl
  let data := (alistFind client_ip rl).getD { window := w, count := 0 }
  let data := if data.window < w then ({ window := w, count := 0 } : RateWindow) else data
  let rl := alistInsert client_ip data rl
  if limit ≤ data.count then
    (some { client_ip := client_ip, limit := limit, window_seconds := 60, retry_after := 60 }, rl)
  else
    (none, alistInsert client_ip { data with count := data.count + 1 } rl)

/-- The spec's words, for comparison with the code: the number of seconds
remaining until the next calendar-minute window begins. -/
def specSecondsUntilNextWindow (current_time : Int) : Int :=
  windowStart current_time + 60 - current_time

/-- n successive _check_rate_limit calls for one client at one instant,
starting from an empty rate-limiter map; returns the final map and how many
of the calls were admitted. -/
def runRateCalls (limit : Nat) (current_time : Int) (client_ip : String) :
    Nat → List (String × RateWindow) × Nat
  | 0 => ([], 0)
  | n + 1 =>
    let prev := runRateCalls limit current_time client_ip n
    match check_rate_limit limit current_time client_ip prev.1 with
    | (none, rl') => (rl', prev.2 + 1)
    | (some _, rl') => (rl', prev.2)

/-- The DNSProxyError hierarchy of src/lib/exceptions.py.
Modelled from the spec: src/lib/exceptions.py is not among the sources; the
spec's error taxonomy (section 7) lists the typed failures ValidationError,
RateLimitExceededError, CircuitBreakerOpenError, UpstreamTimeoutError,
UpstreamConnectionError, UpstreamServiceError, ServiceUnavailableError and
CacheError as the DNSProxyError kinds. -/
inductive DNSProxyErrorKind where
  | validationError
  | rateLimitExceeded
  | circuitBreakerOpen
  | upstreamTimeout
  | upstreamConnection
  | upstreamService
  | serviceUnavailable
  | cacheError
deriving DecidableEq, Repr

/-- An exception arriving at the except chain of DNSProxyService.resolve:
either a typed DNSProxyError or any other Python exception (carrying only
its message here). -/
inductive RaisedException where
  | proxy (kind : DNSProxyErrorKind)
  | otherExc (msg : String)
deriving DecidableEq, Repr

/-- The statistics dict of DNSProxyService (total_response_time, a float,
is not tracked by the embedding). -/
structure ProxyStats where
  total_queries : Nat
  cache_hits : Nat
  cache_misses : Nat
  upstream_queries : Nat
  upstream_errors : Nat
  validation_errors : Nat
  rate_limit_errors : Nat
  circuit_breaker_errors : Nat
deriving DecidableEq, Repr

/-- The zeroed statistics DNSProxyService.__init__ starts from. -/
def initialStats : ProxyStats :=
  { total_queries := 0, cache_hits := 0, cache_misses := 0,
    upstream_queries := 0, upstream_errors := 0, validation_errors := 0,
    rate_limit_errors := 0, circuit_breaker_errors := 0 }

/-- The except chain of DNSProxyService.resolve: the three specific handlers
re-raise after bumping their counter; the generic handler bumps
upstream_errors and re-raises known DNSProxyError instances unchanged while
wrapping anything else into ServiceUnavailableError. -/
def handleResolveException (e : RaisedException) (st : ProxyStats) :
    RaisedException × ProxyStats :=
  match e with
  | RaisedException.proxy DNSProxyErrorKind.validationError =>
    (e, { st with validation_errors := st.validation_errors + 1 })
  | RaisedException.proxy DNSProxyErrorKind.rateLimitExceeded =>
    (e, { st with rate_limit_errors := st.rate_limit_errors + 1 })
  | RaisedException.proxy DNSProxyErrorKind.circuitBreakerOpen =>
    (e, { st with circuit_breaker_errors := st.circuit_breaker_errors + 1 })
  | RaisedException.proxy k =>
    (RaisedException.proxy k, { st with upstream_errors := st.upstream_errors + 1 })
  | RaisedException.otherExc _ =>
    (RaisedException.proxy DNSProxyErrorKind.serviceUnavailable,
      { st with upstream_errors := st.upstream_errors + 1 })

/-- The statistics-relevant control flow of DNSProxyService.resolve.
The try-body outcomes are parameters of the embedding:
validationOutcome/rateLimitOutcome are the exceptions (if any) raised by
query validation and by _check_rate_limit; cacheOutcome is what _try_cache
returns (cache errors are swallowed there, so it is just an Option);
upstreamOutcome is what _query_upstream produces.  On the straight-line
path the counters are bumped exactly as in the source: total_queries after
rate limiting, then cache_hits on a hit, or cache_misses then (on upstream
success) upstream_queries; every raised exception goes through the except
chain. -/
def resolveStep (validationOutcome rateLimitOutcome : Option RaisedException)
    (cacheOutcome : Option DNSResponse)
    (upstreamOutcome : Except RaisedException DNSResponse)
    (st : ProxyStats) : Except RaisedException DNSResponse × ProxyStats :=
  match validationOutcome with
  | some e =>
    (Except.error (handleResolveException e st).1, (handleResolveException e st).2)
  | none =>
    match rateLimitOutcome with
    | some e =>
      (Except.error (handleResolveException e st).1, (handleResolveException e st).2)
    | none =>
      let st := { st with total_queries := st.total_queries + 1 }
      match cacheOutcome with
      | some r => (Except.ok r, { st with cache_hits := st.cache_hits + 1 })
      | none =>
        let st := { st with cache_misses := st.cache_misses + 1 }
        match upstreamOutcome with
        | Except.ok r =>
          (Except.ok r, { st with upstream_queries := st.upstream_queries + 1 })
        | Except.error e =>
          (Except.error (handleResolveException e st).1, (handleResolveException e st).2)

/-- The try-body outcomes of one resolve call that passed validation and
rate limiting. -/
structure ResolveCall where
  cacheOutcome : Option DNSResponse
  upstreamOutcome : Except RaisedException DNSResponse
deriving DecidableEq, Repr

/-- A resolve call that passes validation and rate limiting. -/
def resolvePassing (c : ResolveCall) (st : ProxyStats) :
    Except RaisedException DNSResponse × ProxyStats :=
  resolveStep none none c.cacheOutcome c.upstreamOutcome st

/-- A sequence of passing resolve calls, executed without interleaving. -/
def resolveRun (calls : List ResolveCall) (st : ProxyStats) : ProxyStats :=
  List.foldl (fun s c => (resolvePassing c s).2) st calls

/-- The cache-write step of DNSProxyService.resolve on an upstream response:
the response is handed to the cache only when its ttl is positive
(_try_cache_response swallows cache errors, so the step is total). -/
def resolveCacheStep (current_time : Int) (r : DNSResponse) (st : CacheState) : CacheState :=
  if 0 < r.ttl then cacheSet current_time r st else st

/-- A concrete upstream configuration used to instantiate the theorems
(failure threshold 3, recovery timeout 60, 3 retries). -/
def exampleUpstream : UpstreamService :=
  { service_url := "https://dns.google/resolve", timeout_connect := 5,
    timeout_read := 10, retry_attempts := 3, failure_threshold := 3 }

/-- A concrete upstream state sitting in HALF_OPEN after an earlier OPEN
period (failure count already at the threshold 5, breaker opened at 40). -/
def halfOpenUpstream : UpstreamService :=
  { service_url := "https://dns.google/resolve", timeout_connect := 5,
    timeout_read := 10, retry_attempts := 3, consecutive_failures := 5,
    circuit_breaker_state := CircuitBreakerState.HALF_OPEN,
    circuit_breaker_open_time := some 40, failure_threshold := 5 }

/-- A concrete A answer. -/
def exampleAnswerA : Answer :=
  { name := "example.com", atype := 1, TTL := some 600, data := "93.184.216.34" }

/-- A concrete upstream response with ttl 600 (larger than the cache-wide
default_ttl of 300). -/
def response600 : DNSResponse :=
  { query_name := "example.com", query_type := "A", answers := [exampleAnswerA],
    response_size := 80, ttl := 600, upstream_source := "upstream",
    response_time := 12 }

/-- A concrete upstream response with ttl 5. -/
def response5 : DNSResponse :=
  { query_name := "example.com", query_type := "A", answers := [exampleAnswerA],
    response_size := 80, ttl := 5, upstream_source := "upstream",
    response_time := 12 }

/-- The response a cache hit on response5 returns 2 seconds after the Set:
source cache, remaining ttl 3. -/
def cachedResponse3 : DNSResponse :=
  { query_name := "example.com", query_type := "A", answers := [exampleAnswerA],
    response_size := 80, ttl := 3, upstream_source := "cache",
    response_time := 12 }

/-- A network where every HTTP attempt times out. -/
def allFailAttempts : Nat → Except UpstreamError DNSResponse :=
  fun _ => Except.error UpstreamError.timeoutErr

/-- A retriable-error classification admitting every error. -/
def allRetriable : UpstreamError → Bool := fun _ => true

/-- Concrete recording times for the attempts. -/
def attemptTimes : Nat → Int := fun i => 100 + (i : Int)

theorem record_failure_config (t : Int) (s : UpstreamService) :
    (record_failure t s).failure_threshold = s.failure_threshold ∧
      (record_failure t s).circuit_breaker_timeout = s.circuit_breaker_timeout ∧
      (record_failure t s).retry_attempts = s.retry_attempts := by
  unfold record_failure
  dsimp only
  split <;> simp

theorem record_failure_failures (t : Int) (s : UpstreamService) :
    (record_failure t s).consecutive_failures = s.consecutive_failures + 1 := by
  unfold record_failure
  dsimp only
  split <;> simp

/-- From a non-CLOSED state, record_failure only increments the counter. -/
theorem record_failure_not_closed (t : Int) (s : UpstreamService)
    (h : s.circuit_breaker_state ≠ CircuitBreakerState.CLOSED) :
    record_failure t s = { s with consecutive_failures := s.consecutive_failures + 1 } := by
  unfold record_failure
  dsimp only
  rw [if_neg]
  intro hc
  exact h hc.2

/-- While the incremented count stays below the threshold, the breaker stays
as it was. -/
theorem record_failure_below (t : Int) (s : UpstreamService)
    (h : s.consecutive_failures + 1 < s.failure_threshold) :
    record_failure t s = { s with consecutive_failures := s.consecutive_failures + 1 } := by
  unfold record_failure
  dsimp only
  rw [if_neg]
  intro hc
  exact absurd hc.1 (Nat.not_le.mpr h)

/-- Reaching the threshold from CLOSED opens the breaker and stamps the
open time. -/
theorem record_failure_opens (t : Int) (s : UpstreamService)
    (hs : s.circuit_breaker_state = CircuitBreakerState.CLOSED)
    (h : s.failure_threshold ≤ s.consecutive_failures + 1) :
    record_failure t s =
      { s with consecutive_failures := s.consecutive_failures + 1,
               circuit_breaker_state := CircuitBreakerState.OPEN,
               circuit_breaker_open_time := some t } := by
  unfold record_failure
  dsimp only
  rw [if_pos ⟨h, hs⟩]

theorem foldFailures_nil (s : UpstreamService) : foldFailures [] s = s := rfl

theorem foldFailures_cons (t : Int) (ts : List Int) (s : UpstreamService) :
    foldFailures (t :: ts) s = foldFailures ts (record_failure t s) := rfl

/-- A sequence of recorded failures increments the counter by its length. -/
theorem foldFailures_failures (ts : List Int) (s : UpstreamService) :
    (foldFailures ts s).consecutive_failures = s.consecutive_failures + ts.length := by
  induction ts generalizing s with
  | nil => simp [foldFailures_nil]
  | cons t ts ih =>
    rw [foldFailures_cons, ih, record_failure_failures]
    simp [List.length_cons]
    omega

/-- Below the threshold, a sequence of failures from a CLOSED breaker only
moves the counter. -/
theorem foldFailures_closed_below (ts : List Int) (s : UpstreamService)
    (hs : s.circuit_breaker_state = CircuitBreakerState.CLOSED)
    (h : s.consecutive_failures + ts.length < s.failure_threshold) :
    foldFailures ts s =
      { s with consecutive_failures := s.consecutive_failures + ts.length } := by
  induction ts generalizing s with
  | nil => simp [foldFailures_nil]
  | cons t ts ih =>
    rw [foldFailures_cons]
    rw [record_failure_below t s (by simp [List.length_cons] at h; omega)]
    rw [ih]
    · simp [List.length_cons]
      omega
    · exact hs
    · simp [List.length_cons] at h ⊢
      omega

/-- Exactly reaching the threshold from a CLOSED breaker opens it, with the
open time stamped by the last recorded failure. -/
theorem foldFailures_opens_exact (ts : List Int) (s : UpstreamService)
    (hne : ts ≠ [])
    (hs : s.circuit_breaker_state = CircuitBreakerState.CLOSED)
    (h : s.consecutive_failures + ts.length = s.failure_threshold) :
    foldFailures ts s =
      { s with consecutive_failures := s.consecutive_failures + ts.length,
               circuit_breaker_state := CircuitBreakerState.OPEN,
               circuit_breaker_open_time := some (ts.getLast hne) } := by
  induction ts generalizing s with
  | nil => exact absurd rfl hne
  | cons t ts ih =>
    rw [foldFailures_cons]
    cases ts with
    | nil =>
      rw [foldFailures_nil]
      rw [record_failure_opens t s hs (by simp [List.length_cons] at h; omega)]
      simp [List.getLast]
    | cons t2 ts2 =>
      rw [record_failure_below t s (by simp [List.length_cons] at h ⊢; omega)]
      rw [ih _ (List.cons_ne_nil t2 ts2) (by simpa using hs)
        (by simp [List.length_cons] at h ⊢; omega)]
      simp [List.length_cons, List.getLast_cons]
      omega

/-- Once not CLOSED, further failures never change the breaker fields. -/
theorem foldFailures_not_closed (ts : List Int) (s : UpstreamService)
    (hs : s.circuit_breaker_state ≠ CircuitBreakerState.CLOSED) :
    foldFailures ts s =
      { s with consecutive_failures := s.consecutive_failures + ts.length } := by
  induction ts generalizing s with
  | nil => simp [foldFailures_nil]
  | cons t ts ih =>
    rw [foldFailures_cons, record_failure_not_closed t s hs]
    rw [ih _ (by simpa using hs)]
    simp [List.length_cons]
    omega


theorem timesFrom_length (times : Nat → Int) (i n : Nat) :
    (timesFrom times i n).length = n := by
  induction n generalizing i with
  | zero => rfl
  | succ n ih => simp [timesFrom, ih]

/-- The retry loop always performs at least one and at most fuelAfter + 1
attempts, and its backoff sleeps are exactly min(2 ^ (i + j), 10) for the
zero-based retry index j. -/
theorem execLoop_attempts_sleeps (attempts : Nat → Except UpstreamError DNSResponse)
    (retriable : UpstreamError → Bool) (times : Nat → Int) (i fa : Nat)
    (s : UpstreamService) :
    1 ≤ (execLoop attempts retriable times i fa s).attemptsMade ∧
      (execLoop attempts retriable times i fa s).attemptsMade ≤ fa + 1 ∧
      (execLoop attempts retriable times i fa s).sleeps =
        (List.range ((execLoop attempts retriable times i fa s).attemptsMade - 1)).map
          (fun j => min (2 ^ (i + j)) 10) := by
  induction fa generalizing i s with
  | zero =>
    unfold execLoop
    match h : attempts i with
    | Except.ok r => simp [h]
    | Except.error e => simp [h]
  | succ fa ih =>
    unfold execLoop
    match h : attempts i with
    | Except.ok r => simp [h]
    | Except.error e =>
      simp only [h]
      by_cases hr : retriable e
      · simp only [hr, if_true]
        obtain ⟨h1, h2, h3⟩ := ih (i + 1) (record_failure (times i) s)
        refine ⟨by omega, by omega, ?_⟩
        have hm : (execLoop attempts retriable times (i + 1) fa
            (record_failure (times i) s)).attemptsMade + 1 - 1 =
            ((execLoop attempts retriable times (i + 1) fa
              (record_failure (times i) s)).attemptsMade - 1) + 1 := by omega
        simp only [hm, List.range_succ_eq_map, List.map_cons, List.map_map,
          Nat.add_zero]
        rw [h3]
        congr 1
        apply List.map_congr_left
        intro j hj
        have hij : i + 1 + j = i + (j + 1) := by omega
        simp [Function.comp, hij]
      · simp [hr]

/-- When every attempt fails, the final upstream state is the fold of
record_failure over the recording times of the attempts made. -/
theorem execLoop_all_fail (attempts : Nat → Except UpstreamError DNSResponse)
    (retriable : UpstreamError → Bool) (times : Nat → Int) (i fa : Nat)
    (s : UpstreamService)
    (hfail : ∀ j, (attempts j).isOk = false) :
    (execLoop attempts retriable times i fa s).state =
      foldFailures
        (timesFrom times i (execLoop attempts retriable times i fa s).attemptsMade) s := by
  induction fa generalizing i s with
  | zero =>
    unfold execLoop
    match h : attempts i with
    | Except.ok r =>
      have := hfail i; rw [h] at this; simp [Except.isOk, Except.toBool] at this
    | Except.error e => simp [h, timesFrom, foldFailures_cons, foldFailures_nil]
  | succ fa ih =>
    unfold execLoop
    match h : attempts i with
    | Except.ok r =>
      have := hfail i; rw [h] at this; simp [Except.isOk, Except.toBool] at this
    | Except.error e =>
      simp only [h]
      by_cases hr : retriable e
      · simp only [hr, if_true]
        rw [ih (i + 1) (record_failure (times i) s)]
        simp [timesFrom, foldFailures_cons]
      · simp [hr, timesFrom, foldFailures_cons, foldFailures_nil]


theorem alistFind_insert_self {α β : Type} [DecidableEq α] (k : α) (v : β)
    (l : List (α × β)) : alistFind k (alistInsert k v l) = some v := by
  simp [alistInsert, alistFind]


/-- Reaching at least the threshold from a fresh CLOSED breaker opens it. -/
theorem foldFailures_opens_ge (ts : List Int) (s : UpstreamService)
    (hne : ts ≠ [])
    (hs : s.circuit_breaker_state = CircuitBreakerState.CLOSED)
    (h : s.failure_threshold ≤ s.consecutive_failures + ts.length) :
    (foldFailures ts s).circuit_breaker_state = CircuitBreakerState.OPEN := by
  induction ts generalizing s with
  | nil => exact absurd rfl hne
  | cons t ts ih =>
    rw [foldFailures_cons]
    by_cases hth : s.failure_threshold ≤ s.consecutive_failures + 1
    · rw [record_failure_opens t s hs hth]
      rw [foldFailures_not_closed]
      simp
    · cases ts with
      | nil =>
        simp [List.length_cons] at h
        omega
      | cons t2 ts2 =>
        rw [record_failure_below t s (by omega)]
        exact ih _ (List.cons_ne_nil t2 ts2) (by simpa using hs)
          (by simp [List.length_cons] at h ⊢; omega)

/-- A successful association-list lookup comes from a member binding. -/
theorem alistFind_mem {α β : Type} [DecidableEq α] (k : α) (v : β)
    (l : List (α × β)) (h : alistFind k l = some v) : (k, v) ∈ l := by
  induction l with
  | nil => simp [alistFind] at h
  | cons p rest ih =>
    match p with
    | (k', v') =>
      by_cases hk : k' = k
      · subst hk
        simp [alistFind] at h
        simp [h]
      · simp [alistFind, hk] at h
        exact List.mem_cons_of_mem _ (ih h)

/-- Claim C3: in state HALF_OPEN, recording one success transitions the
breaker to CLOSED and zeroes consecutive_failures (this half holds); but
recording one failure leaves the state HALF_OPEN with the stale open time,
instead of transitioning to OPEN with opened_at set to the current time as
the specification requires: record_failure only opens the breaker from
CLOSED.  Evaluated on the concrete HALF_OPEN state halfOpenUpstream at
time 100. -/
theorem halfOpen_success_closes_failure_keeps_halfOpen :
    (record_success 100 halfOpenUpstream).circuit_breaker_state =
      CircuitBreakerState.CLOSED ∧
    (record_success 100 halfOpenUpstream).consecutive_failures = 0 ∧
    (record_failure 100 halfOpenUpstream).circuit_breaker_state =
      CircuitBreakerState.HALF_OPEN ∧
    (record_failure 100 halfOpenUpstream).circuit_breaker_state ≠
      CircuitBreakerState.OPEN ∧
    (record_failure 100 halfOpenUpstream).circuit_breaker_open_time ≠ some 100 ∧
    (record_failure 100 halfOpenUpstream).consecutive_failures = 6 := by
  decide

/-- Claim C6: a query call performs at most retry_attempts + 1 HTTP attempts
in total, and its backoff sleeps, in order, are exactly min(2 ^ i, 10)
seconds for the zero-based retry index i — regardless of the attempt
outcomes and of which errors the classification treats as retriable. -/
theorem retries_bounded_and_backoff (attempts : Nat → Except UpstreamError DNSResponse)
    (retriable : UpstreamError → Bool) (times : Nat → Int) (s : UpstreamService) :
    (execute_with_retries attempts retriable times s).attemptsMade ≤ s.retry_attempts + 1 ∧
    (execute_with_retries attempts retriable times s).sleeps =
      (List.range ((execute_with_retries attempts retriable times s).attemptsMade - 1)).map
        (fun i => min (2 ^ i) 10) := by
  obtain ⟨h1, h2, h3⟩ :=
    execLoop_attempts_sleeps attempts retriable times 0 s.retry_attempts s
  refine ⟨h2, ?_⟩
  simp only [execute_with_retries] at h3 ⊢
  rw [h3]
  apply List.map_congr_left
  intro j hj
  simp

/-- Claim C9: when every HTTP attempt of one query call fails, each attempt
(the first and every retry) records one failure, so the final
consecutive_failures count exceeds the initial one by exactly the number of
attempts made; and from a fresh CLOSED breaker, a single call whose attempt
count reaches the failure threshold leaves the breaker OPEN by itself. -/
theorem all_failed_attempts_accumulate (attempts : Nat → Except UpstreamError DNSResponse)
    (retriable : UpstreamError → Bool) (times : Nat → Int) (s : UpstreamService)
    (hfail : ∀ j, (attempts j).isOk = false) :
    (execute_with_retries attempts retriable times s).state.consecutive_failures =
      s.consecutive_failures + (execute_with_retries attempts retriable times s).attemptsMade ∧
    (s.circuit_breaker_state = CircuitBreakerState.CLOSED →
      s.consecutive_failures = 0 →
      s.failure_threshold ≤ (execute_with_retries attempts retriable times s).attemptsMade →
      (execute_with_retries attempts retriable times s).state.circuit_breaker_state =
        CircuitBreakerState.OPEN) := by
  have hstate := execLoop_all_fail attempts retriable times 0 s.retry_attempts s hfail
  have hmade := execLoop_attempts_sleeps attempts retriable times 0 s.retry_attempts s
  simp only [execute_with_retries]
  constructor
  · rw [hstate, foldFailures_failures, timesFrom_length]
  · intro hclosed hzero hth
    rw [hstate]
    apply foldFailures_opens_ge _ _ _ hclosed
    · rw [timesFrom_length, hzero]
      omega
    · have : (timesFrom times 0
          (execLoop attempts retriable times 0 s.retry_attempts s).attemptsMade).length =
          (execLoop attempts retriable times 0 s.retry_attempts s).attemptsMade :=
        timesFrom_length _ _ _
      intro hnil
      rw [hnil] at this
      simp at this
      omega

/-- Claim C9 witness: with threshold 3 and four attempts all timing out, one
query call takes consecutive_failures from 0 to 4 and opens the breaker. -/
theorem all_failed_attempts_accumulate_witness :
    (∀ j, (allFailAttempts j).isOk = false) ∧
    (execute_with_retries allFailAttempts allRetriable attemptTimes exampleUpstream).state.consecutive_failures =
      exampleUpstream.consecutive_failures +
        (execute_with_retries allFailAttempts allRetriable attemptTimes exampleUpstream).attemptsMade ∧
    (execute_with_retries allFailAttempts allRetriable attemptTimes exampleUpstream).state.circuit_breaker_state =
      CircuitBreakerState.OPEN :=
  ⟨fun _ => rfl,
    (all_failed_attempts_accumulate allFailAttempts allRetriable attemptTimes
      exampleUpstream (fun _ => rfl)).1,
    (all_failed_attempts_accumulate allFailAttempts allRetriable attemptTimes
      exampleUpstream (fun _ => rfl)).2 rfl rfl (by decide)⟩

/-- Claim C2: from a CLOSED breaker with no recorded failures, threshold
many consecutive recorded failures leave the breaker OPEN with the open time
stamped by the last failure; every query call made strictly before
open time + recovery timeout is rejected with CircuitBreakerOpenError,
performs zero HTTP attempts and leaves the state unchanged; and the first
admission check at or after open time + recovery timeout transitions the
breaker to HALF_OPEN and admits the call (at least one HTTP attempt). -/
theorem threshold_failures_open_then_recover (s0 : UpstreamService) (ts : List Int)
    (hne : ts ≠ [])
    (hclosed : s0.circuit_breaker_state = CircuitBreakerState.CLOSED)
    (hzero : s0.consecutive_failures = 0)
    (hlen : ts.length = s0.failure_threshold)
    (attempts : Nat → Except UpstreamError DNSResponse)
    (retriable : UpstreamError → Bool) (times : Nat → Int) :
    (foldFailures ts s0).circuit_breaker_state = CircuitBreakerState.OPEN ∧
    (foldFailures ts s0).circuit_breaker_open_time = some (ts.getLast hne) ∧
    (∀ t : Int, t < ts.getLast hne + s0.circuit_breaker_timeout →
      query attempts retriable times t (foldFailures ts s0) =
        ⟨Except.error (QueryError.circuitBreakerOpenErr
            (foldFailures ts s0).consecutive_failures),
          foldFailures ts s0, 0, []⟩) ∧
    (∀ t : Int, ts.getLast hne + s0.circuit_breaker_timeout ≤ t →
      should_allow_request t (foldFailures ts s0) =
        (true, { foldFailures ts s0 with
                  circuit_breaker_state := CircuitBreakerState.HALF_OPEN }) ∧
      1 ≤ (query attempts retriable times t (foldFailures ts s0)).httpAttempts) := by
  have hfold := foldFailures_opens_exact ts s0 hne hclosed (by omega)
  refine ⟨by rw [hfold], by rw [hfold], ?_, ?_⟩
  · intro t ht
    have hallow : should_allow_request t (foldFailures ts s0) =
        (false, foldFailures ts s0) := by
      rw [hfold]
      simp only [should_allow_request]
      rw [if_neg (by omega)]
    simp only [query, hallow]
  · intro t ht
    have hallow : should_allow_request t (foldFailures ts s0) =
        (true, { foldFailures ts s0 with
                  circuit_breaker_state := CircuitBreakerState.HALF_OPEN }) := by
      rw [hfold]
      simp only [should_allow_request]
      rw [if_pos (by omega)]
    refine ⟨hallow, ?_⟩
    simp only [query, hallow]
    exact (execLoop_attempts_sleeps attempts retriable times 0 _ _).1

/-- Claim C2 witness: threshold 3, failures at times 10, 20, 30, recovery
timeout 60: the breaker is OPEN with open time 30; a query at 50 is
rejected with no HTTP attempt; the admission check at 90 transitions to
HALF_OPEN and the query at 90 performs an attempt. -/
theorem threshold_failures_open_then_recover_witness :
    ([10, 20, 30] ≠ ([] : List Int)) ∧
    (foldFailures [10, 20, 30] exampleUpstream).circuit_breaker_state =
      CircuitBreakerState.OPEN ∧
    query allFailAttempts allRetriable attemptTimes 50 (foldFailures [10, 20, 30] exampleUpstream) =
      ⟨Except.error (QueryError.circuitBreakerOpenErr
          (foldFailures [10, 20, 30] exampleUpstream).consecutive_failures),
        foldFailures [10, 20, 30] exampleUpstream, 0, []⟩ ∧
    should_allow_request 90 (foldFailures [10, 20, 30] exampleUpstream) =
      (true, { foldFailures [10, 20, 30] exampleUpstream with
                circuit_breaker_state := CircuitBreakerState.HALF_OPEN }) ∧
    1 ≤ (query allFailAttempts allRetriable attemptTimes 90
          (foldFailures [10, 20, 30] exampleUpstream)).httpAttempts := by
  have H := threshold_failures_open_then_recover exampleUpstream [10, 20, 30]
    (by decide) (by decide) (by decide) (by decide)
    allFailAttempts allRetriable attemptTimes
  have hlast : ([10, 20, 30] : List Int).getLast (by decide) = 30 := by decide
  refine ⟨by decide, H.1, ?_, ?_, ?_⟩
  · exact H.2.2.1 50 (by rw [hlast]; decide)
  · exact (H.2.2.2 90 (by rw [hlast]; decide)).1
  · exact (H.2.2.2 90 (by rw [hlast]; decide)).2

/-- Claim C1 counterexample: an upstream response with an empty answer list
is assigned the default ttl 300 by _extract_ttl, so the resolver's
cache-write condition ttl greater than 0 holds and the empty response is
written to the cache: after the write, the key is present. -/
theorem empty_answer_response_is_cached :
    (parse_response "example.com" "A" [] 50 10).answers = [] ∧
    (parse_response "example.com" "A" [] 50 10).ttl = 300 ∧
    (alistFind (create_cache_key "example.com" "A")
        (resolveCacheStep 0 (parse_response "example.com" "A" [] 50 10)
          (CacheState.init 1000)).entries).isSome = true := by
  decide

/-- Claim C1 amended: the resolver writes an upstream response to the cache
exactly when the derived ttl is positive, with no condition on the answer
list; an empty answer list yields the default ttl 300 and is therefore
cached. -/
theorem cache_write_iff_positive_ttl (q_name q_type : String)
    (answers : List Answer) (sz rt now : Int) (st : CacheState)
    (habs : alistFind (create_cache_key q_name q_type) st.entries = none) :
    ((alistFind (create_cache_key q_name q_type)
        (resolveCacheStep now (parse_response q_name q_type answers sz rt) st).entries).isSome ↔
      0 < extract_ttl answers) ∧
    extract_ttl [] = 300 := by
  refine ⟨?_, by decide⟩
  have httl : (parse_response q_name q_type answers sz rt).ttl = extract_ttl answers := rfl
  by_cases h : 0 < extract_ttl answers
  · simp only [resolveCacheStep, httl, if_pos h, cacheSet]
    rw [if_neg (by omega)]
    simp only [parse_response]
    rw [alistFind_insert_self]
    simpa using h
  · simp only [resolveCacheStep, httl, if_neg h]
    rw [habs]
    simp
    omega

/-- Claim C1 amended witness: a one-answer response with TTL 600 into an
empty cache. -/
theorem cache_write_iff_positive_ttl_witness :
    (alistFind (create_cache_key "example.com" "A") (CacheState.init 1000).entries = none) ∧
    (((alistFind (create_cache_key "example.com" "A")
        (resolveCacheStep 0 (parse_response "example.com" "A" [exampleAnswerA] 80 12)
          (CacheState.init 1000)).entries).isSome ↔
      0 < extract_ttl [exampleAnswerA]) ∧
    extract_ttl [] = 300) :=
  ⟨rfl, cache_write_iff_positive_ttl "example.com" "A" [exampleAnswerA] 80 12 0
    (CacheState.init 1000) rfl⟩

/-- Claim C4 counterexample: the underlying TTLCache is built with the
cache-wide default_ttl of 300, so a response stored with ttl 600 is already
invisible 400 seconds after the Set: the Get at 400, strictly less than ttl
seconds after the Set, is a miss (and the expired counter is untouched). -/
theorem get_within_ttl_misses_after_default_ttl :
    (400 : Int) < 0 + response600.ttl ∧
    (cacheGet 400 response600.query_name response600.query_type
      (cacheSet 0 response600 (CacheState.init 1000))).response = none ∧
    (cacheGet 400 response600.query_name response600.query_type
      (cacheSet 0 response600 (CacheState.init 1000))).state.expired =
      (CacheState.init 1000).expired := by
  decide

/-- Claim C4 amended: after a Set at t0 with ttl greater than 0, a Get at tg
behaves in three windows: strictly before both t0 + ttl and
t0 + default_ttl it is a hit; at or after t0 + ttl but still before
t0 + default_ttl it is a miss that increments expired by one; at or after
t0 + default_ttl the TTLCache slot itself has expired, so it is a miss that
leaves expired unchanged. -/
theorem cache_expiry_windows (st : CacheState) (r : DNSResponse) (t0 tg : Int)
    (httl : 0 < r.ttl) :
    (tg < t0 + r.ttl → tg < t0 + st.default_ttl →
      ((cacheGet tg r.query_name r.query_type (cacheSet t0 r st)).response.isSome = true ∧
       (cacheGet tg r.query_name r.query_type (cacheSet t0 r st)).state.hits = st.hits + 1 ∧
       (cacheGet tg r.query_name r.query_type (cacheSet t0 r st)).state.expired = st.expired ∧
       (cacheGet tg r.query_name r.query_type (cacheSet t0 r st)).state.misses = st.misses)) ∧
    (t0 + r.ttl ≤ tg → tg < t0 + st.default_ttl →
      ((cacheGet tg r.query_name r.query_type (cacheSet t0 r st)).response = none ∧
       (cacheGet tg r.query_name r.query_type (cacheSet t0 r st)).state.expired = st.expired + 1 ∧
       (cacheGet tg r.query_name r.query_type (cacheSet t0 r st)).state.misses = st.misses + 1)) ∧
    (t0 + st.default_ttl ≤ tg →
      ((cacheGet tg r.query_name r.query_type (cacheSet t0 r st)).response = none ∧
       (cacheGet tg r.query_name r.query_type (cacheSet t0 r st)).state.expired = st.expired ∧
       (cacheGet tg r.query_name r.query_type (cacheSet t0 r st)).state.misses = st.misses + 1)) := by
  have hne : ¬ r.ttl ≤ 0 := by omega
  have hset : cacheSet t0 r st =
      { st with
        entries := alistInsert (create_cache_key r.query_name r.query_type)
          { slot_expires := t0 + st.default_ttl,
            entry := CacheEntry.create r.query_name r.query_type
              (response_to_cache_data r) r.ttl t0 } st.entries,
        sets := st.sets + 1,
        evicted := st.evicted +
          (if (alistFind (create_cache_key r.query_name r.query_type) st.entries).isSome
            then 1 else 0) } := by
    simp only [cacheSet, if_neg hne]
  refine ⟨?_, ?_, ?_⟩
  · intro hent hslot
    rw [hset]
    simp only [cacheGet, ttlcache_get, alistFind_insert_self]
    rw [if_pos hslot]
    simp only [CacheEntry.is_expired, CacheEntry.create, decide_eq_true_eq]
    rw [if_neg (by omega)]
    simp
  · intro hent hslot
    rw [hset]
    simp only [cacheGet, ttlcache_get, alistFind_insert_self]
    rw [if_pos hslot]
    simp only [CacheEntry.is_expired, CacheEntry.create, decide_eq_true_eq]
    rw [if_pos (by omega)]
    simp
  · intro hslot
    rw [hset]
    simp only [cacheGet, ttlcache_get, alistFind_insert_self]
    rw [if_neg (by omega)]
    simp

/-- Claim C4 amended witness: ttl 5 and default_ttl 300; gets at 2, 7 and
301 seconds after the Set land in the three windows. -/
theorem cache_expiry_windows_witness :
    (0 : Int) < response5.ttl ∧
    ((cacheGet 2 response5.query_name response5.query_type
        (cacheSet 0 response5 (CacheState.init 1000))).response.isSome = true ∧
     (cacheGet 2 response5.query_name response5.query_type
        (cacheSet 0 response5 (CacheState.init 1000))).state.hits =
        (CacheState.init 1000).hits + 1 ∧
     (cacheGet 2 response5.query_name response5.query_type
        (cacheSet 0 response5 (CacheState.init 1000))).state.expired =
        (CacheState.init 1000).expired ∧
     (cacheGet 2 response5.query_name response5.query_type
        (cacheSet 0 response5 (CacheState.init 1000))).state.misses =
        (CacheState.init 1000).misses) ∧
    ((cacheGet 7 response5.query_name response5.query_type
        (cacheSet 0 response5 (CacheState.init 1000))).response = none ∧
     (cacheGet 7 response5.query_name response5.query_type
        (cacheSet 0 response5 (CacheState.init 1000))).state.expired =
        (CacheState.init 1000).expired + 1 ∧
     (cacheGet 7 response5.query_name response5.query_type
        (cacheSet 0 response5 (CacheState.init 1000))).state.misses =
        (CacheState.init 1000).misses + 1) ∧
    ((cacheGet 301 response5.query_name response5.query_type
        (cacheSet 0 response5 (CacheState.init 1000))).response = none ∧
     (cacheGet 301 response5.query_name response5.query_type
        (cacheSet 0 response5 (CacheState.init 1000))).state.expired =
        (CacheState.init 1000).expired ∧
     (cacheGet 301 response5.query_name response5.query_type
        (cacheSet 0 response5 (CacheState.init 1000))).state.misses =
        (CacheState.init 1000).misses + 1) :=
  ⟨by decide,
    (cache_expiry_windows (CacheState.init 1000) response5 0 2 (by decide)).1
      (by decide) (by decide),
    (cache_expiry_windows (CacheState.init 1000) response5 0 7 (by decide)).2.1
      (by decide) (by decide),
    (cache_expiry_windows (CacheState.init 1000) response5 0 301 (by decide)).2.2
      (by decide)⟩

/-- Claim C5: every cache Get hit returns a response whose source is cache
and whose ttl equals max(0, expires_at - now) for the entry found under the
key; with the clock at or past the entry storage time, the returned ttl lies
between 0 and the originally stored ttl. -/
theorem cache_hit_source_and_ttl (st : CacheState) (qn qt : String) (t : Int)
    (resp : DNSResponse)
    (hget : (cacheGet t qn qt st).response = some resp)
    (hmono : ∀ p ∈ st.entries, p.2.entry.stored_at ≤ t) :
    resp.upstream_source = "cache" ∧ 0 ≤ resp.ttl ∧
    ∃ slot, alistFind (create_cache_key qn qt) st.entries = some slot ∧
      resp.ttl = max 0 (slot.entry.expires_at - t) ∧
      resp.ttl ≤ slot.entry.get_ttl_seconds := by
  simp only [cacheGet] at hget
  cases hlk : ttlcache_get t st.entries (create_cache_key qn qt) with
  | none => rw [hlk] at hget; simp at hget
  | some slot =>
    rw [hlk] at hget
    have hfind : alistFind (create_cache_key qn qt) st.entries = some slot ∧
        t < slot.slot_expires := by
      unfold ttlcache_get at hlk
      cases hf : alistFind (create_cache_key qn qt) st.entries with
      | none => rw [hf] at hlk; simp at hlk
      | some slot' =>
        rw [hf] at hlk
        dsimp only at hlk
        split at hlk
        · rename_i hvis
          injection hlk with hsl
          subst hsl
          exact ⟨rfl, hvis⟩
        · simp at hlk
    by_cases hexp : slot.entry.is_expired t
    · simp [hexp] at hget
    · simp only [hexp, Bool.false_eq_true, if_false, if_neg] at hget
      have hresp : resp = cache_entry_to_response t (slot.entry.access t) := by
        simp at hget
        exact hget.symm
      have hstored : slot.entry.stored_at ≤ t :=
        hmono _ (alistFind_mem _ _ _ hfind.1)
      have hnotexp : ¬ slot.entry.expires_at ≤ t := by
        simpa [CacheEntry.is_expired] using hexp
      subst hresp
      refine ⟨rfl, ?_, slot, hfind.1, ?_, ?_⟩
      · simp [cache_entry_to_response, CacheEntry.get_remaining_ttl]
      · simp [cache_entry_to_response, CacheEntry.get_remaining_ttl, CacheEntry.access]
      · simp only [cache_entry_to_response, CacheEntry.get_remaining_ttl,
          CacheEntry.access, CacheEntry.get_ttl_seconds]
        omega

/-- Claim C5 witness: a hit 2 seconds after storing a ttl-5 response returns
source cache and ttl 3, bounded by the stored ttl 5. -/
theorem cache_hit_source_and_ttl_witness :
    ((cacheGet 2 "example.com" "A" (cacheSet 0 response5 (CacheState.init 1000))).response =
      some cachedResponse3) ∧
    (∀ p ∈ (cacheSet 0 response5 (CacheState.init 1000)).entries, p.2.entry.stored_at ≤ (2 : Int)) ∧
    (cachedResponse3.upstream_source = "cache" ∧ 0 ≤ cachedResponse3.ttl ∧
      ∃ slot, alistFind (create_cache_key "example.com" "A")
          (cacheSet 0 response5 (CacheState.init 1000)).entries = some slot ∧
        cachedResponse3.ttl = max 0 (slot.entry.expires_at - 2) ∧
        cachedResponse3.ttl ≤ slot.entry.get_ttl_seconds) :=
  ⟨by decide, by decide,
    cache_hit_source_and_ttl (cacheSet 0 response5 (CacheState.init 1000))
      "example.com" "A" 2 cachedResponse3 (by decide) (by decide)⟩

/-- One _check_rate_limit call when the client already has a window record
for the current minute with count c: at or above the limit it raises with
retry_after 60 and only writes the unchanged window data back; below the
limit it admits and increments the count. -/
theorem check_rate_limit_known (limit : Nat) (now : Int) (ip : String)
    (rl : List (String × RateWindow)) (c : Nat)
    (h : alistFind ip rl = some { window := windowStart now, count := c }) :
    check_rate_limit limit now ip rl =
      if limit ≤ c then
        (some { client_ip := ip, limit := limit, window_seconds := 60, retry_after := 60 },
          alistInsert ip { window := windowStart now, count := c } rl)
      else
        (none, alistInsert ip { window := windowStart now, count := c + 1 }
          (alistInsert ip { window := windowStart now, count := c } rl)) := by
  simp only [check_rate_limit, h, Option.isSome_some, if_true, Option.getD_some]
  rw [if_neg (lt_irrefl _)]

/-- The first _check_rate_limit call for a client: the default record is
inserted, then the limit test runs against count 0. -/
theorem check_rate_limit_empty (limit : Nat) (now : Int) (ip : String) :
    check_rate_limit limit now ip [] =
      if limit ≤ 0 then
        (some { client_ip := ip, limit := limit, window_seconds := 60, retry_after := 60 },
          [(ip, { window := windowStart now, count := 0 })])
      else
        (none, [(ip, { window := windowStart now, count := 1 })]) := by
  simp [check_rate_limit, alistFind, alistInsert, alistErase, lt_irrefl]

/-- After n same-minute calls for one client from an empty limiter map, the
admitted count is min n limit and (once the client appears) the stored
record is the current window with count min n limit. -/
theorem runRateCalls_spec (limit : Nat) (now : Int) (ip : String) (n : Nat) :
    (runRateCalls limit now ip n).2 = min n limit ∧
    (0 < n → alistFind ip (runRateCalls limit now ip n).1 =
      some { window := windowStart now, count := min n limit }) := by
  induction n with
  | zero => simp [runRateCalls]
  | succ n ih =>
    obtain ⟨ha, hf⟩ := ih
    by_cases hn : 0 < n
    · have hfind := hf hn
      simp only [runRateCalls]
      rw [check_rate_limit_known limit now ip _ (min n limit) hfind]
      by_cases hl : limit ≤ min n limit
      · rw [if_pos hl]
        dsimp only
        have hmin : min (n + 1) limit = min n limit := by omega
        refine ⟨by rw [ha, hmin], fun _ => ?_⟩
        rw [alistFind_insert_self, hmin]
      · rw [if_neg hl]
        dsimp only
        have hmin : min (n + 1) limit = min n limit + 1 := by omega
        refine ⟨by rw [ha, hmin], fun _ => ?_⟩
        rw [alistFind_insert_self, hmin]
    · have hz : n = 0 := by omega
      subst hz
      simp only [runRateCalls]
      rw [check_rate_limit_empty]
      by_cases hl : limit ≤ 0
      · rw [if_pos hl]
        dsimp only
        have hmin : min 1 limit = 0 := by omega
        refine ⟨by rw [hmin], fun _ => ?_⟩
        simp [alistFind, hmin]
      · rw [if_neg hl]
        dsimp only
        have hmin : min 1 limit = 1 := by omega
        refine ⟨by rw [hmin], fun _ => ?_⟩
        simp [alistFind, hmin]

/-- Claim C7 counterexample: with limit 1, the second same-minute request at
second 30 of the minute is rejected with retry_after 60, although only 30
seconds remain until the next window begins. -/
theorem rate_limit_retry_after_constant :
    (check_rate_limit 1 30 "192.0.2.1" (runRateCalls 1 30 "192.0.2.1" 1).1).1 =
      some { client_ip := "192.0.2.1", limit := 1, window_seconds := 60,
              retry_after := 60 } ∧
    specSecondsUntilNextWindow 30 = 30 ∧ ((60 : Int) ≠ 30) := by
  decide

/-- Claim C7 amended: per client and calendar-minute window the limiter
admits exactly the first limit requests, and every further request in the
same window is rejected with a RateLimitExceededError whose retry_after is
the constant 60 (not the seconds remaining until the next window). -/
theorem rate_limiter_admits_first_limit (limit : Nat) (now : Int) (ip : String)
    (n : Nat) :
    (runRateCalls limit now ip n).2 = min n limit ∧
    (limit ≤ n →
      (check_rate_limit limit now ip (runRateCalls limit now ip n).1).1 =
        some { client_ip := ip, limit := limit, window_seconds := 60,
                retry_after := 60 }) := by
  obtain ⟨ha, hf⟩ := runRateCalls_spec limit now ip n
  refine ⟨ha, fun hln => ?_⟩
  by_cases hn : 0 < n
  · rw [check_rate_limit_known limit now ip _ (min n limit) (hf hn)]
    rw [if_pos (by omega)]
  · have hz : n = 0 := by omega
    subst hz
    simp only [runRateCalls]
    rw [check_rate_limit_empty, if_pos (by omega)]

/-- Claim C7 amended witness: limit 2, three same-minute requests at second
45 of the minute: two admitted, the third rejected with retry_after 60. -/
theorem rate_limiter_admits_first_limit_witness :
    (runRateCalls 2 45 "192.0.2.7" 3).2 = min 3 2 ∧
    ((2 : Nat) ≤ 3) ∧
    (check_rate_limit 2 45 "192.0.2.7" (runRateCalls 2 45 "192.0.2.7" 3).1).1 =
      some { client_ip := "192.0.2.7", limit := 2, window_seconds := 60,
              retry_after := 60 } :=
  ⟨(rate_limiter_admits_first_limit 2 45 "192.0.2.7" 3).1, by decide,
    (rate_limiter_admits_first_limit 2 45 "192.0.2.7" 3).2 (by decide)⟩

/-- The except chain never touches total_queries, cache_hits or
cache_misses. -/
theorem handleResolveException_counts (e : RaisedException) (st : ProxyStats) :
    (handleResolveException e st).2.total_queries = st.total_queries ∧
    (handleResolveException e st).2.cache_hits = st.cache_hits ∧
    (handleResolveException e st).2.cache_misses = st.cache_misses := by
  cases e with
  | proxy k => cases k <;> simp [handleResolveException]
  | otherExc m => simp [handleResolveException]

/-- One passing resolve call bumps total_queries once and exactly one of
cache_hits and cache_misses once, whatever the cache and upstream do. -/
theorem resolvePassing_counts (c : ResolveCall) (st : ProxyStats) :
    (resolvePassing c st).2.total_queries = st.total_queries + 1 ∧
    (((resolvePassing c st).2.cache_hits = st.cache_hits + 1 ∧
      (resolvePassing c st).2.cache_misses = st.cache_misses) ∨
     ((resolvePassing c st).2.cache_misses = st.cache_misses + 1 ∧
      (resolvePassing c st).2.cache_hits = st.cache_hits)) := by
  unfold resolvePassing resolveStep
  cases hc : c.cacheOutcome with
  | some r => exact ⟨rfl, Or.inl ⟨rfl, rfl⟩⟩
  | none =>
    cases hu : c.upstreamOutcome with
    | ok r => exact ⟨rfl, Or.inr ⟨rfl, rfl⟩⟩
    | error e =>
      obtain ⟨h1, h2, h3⟩ := handleResolveException_counts e
        { st with total_queries := st.total_queries + 1,
                  cache_misses := st.cache_misses + 1 }
      exact ⟨h1, Or.inr ⟨h3, h2⟩⟩

/-- The statistics equation is preserved by every passing call. -/
theorem resolveRun_preserves (calls : List ResolveCall) (st : ProxyStats)
    (h : st.total_queries = st.cache_hits + st.cache_misses) :
    (resolveRun calls st).total_queries =
      (resolveRun calls st).cache_hits + (resolveRun calls st).cache_misses := by
  induction calls generalizing st with
  | nil => exact h
  | cons c calls ih =>
    have hstep := resolvePassing_counts c st
    have : (resolvePassing c st).2.total_queries =
        (resolvePassing c st).2.cache_hits + (resolvePassing c st).2.cache_misses := by
      obtain ⟨h1, h2 | h2⟩ := hstep <;> omega
    exact ih _ this

/-- Claim C8: every resolve call that passes validation and rate limiting
increments total_queries by one and exactly one of cache_hits and
cache_misses by one, so along any sequence of such calls from the freshly
initialised statistics, total_queries = cache_hits + cache_misses. -/
theorem resolver_stats_equation :
    (∀ (c : ResolveCall) (st : ProxyStats),
      (resolvePassing c st).2.total_queries = st.total_queries + 1 ∧
      (((resolvePassing c st).2.cache_hits = st.cache_hits + 1 ∧
        (resolvePassing c st).2.cache_misses = st.cache_misses) ∨
       ((resolvePassing c st).2.cache_misses = st.cache_misses + 1 ∧
        (resolvePassing c st).2.cache_hits = st.cache_hits))) ∧
    (∀ calls : List ResolveCall,
      (resolveRun calls initialStats).total_queries =
        (resolveRun calls initialStats).cache_hits +
          (resolveRun calls initialStats).cache_misses) :=
  ⟨resolvePassing_counts,
    fun calls => resolveRun_preserves calls initialStats rfl⟩

/-- What the generic except handler re-raises. -/
theorem handleResolveException_fst (e : RaisedException) (st : ProxyStats) :
    (handleResolveException e st).1 =
      match e with
      | RaisedException.proxy k => RaisedException.proxy k
      | RaisedException.otherExc _ =>
        RaisedException.proxy DNSProxyErrorKind.serviceUnavailable := by
  cases e with
  | proxy k => cases k <;> rfl
  | otherExc m => rfl

/-- Claim C10: resolve only ever raises typed DNSProxyError exceptions: any
error escaping resolveStep is a proxy error; a DNSProxyError reaching the
except chain propagates unchanged, and any other exception is wrapped into
ServiceUnavailableError. -/
theorem resolve_raises_only_typed :
    (∀ (v r : Option RaisedException) (c : Option DNSResponse)
        (u : Except RaisedException DNSResponse) (st : ProxyStats)
        (e' : RaisedException),
      (resolveStep v r c u st).1 = Except.error e' →
        ∃ k, e' = RaisedException.proxy k) ∧
    (∀ (k : DNSProxyErrorKind) (st : ProxyStats),
      (handleResolveException (RaisedException.proxy k) st).1 =
        RaisedException.proxy k) ∧
    (∀ (m : String) (st : ProxyStats),
      (handleResolveException (RaisedException.otherExc m) st).1 =
        RaisedException.proxy DNSProxyErrorKind.serviceUnavailable) := by
  have hfst : ∀ (e : RaisedException) (st : ProxyStats),
      ∃ k, (handleResolveException e st).1 = RaisedException.proxy k := by
    intro e st
    cases e with
    | proxy k => exact ⟨k, by rw [handleResolveException_fst]⟩
    | otherExc m =>
      exact ⟨DNSProxyErrorKind.serviceUnavailable, by rw [handleResolveException_fst]⟩
  refine ⟨?_, ?_, ?_⟩
  · intro v r c u st e' h
    unfold resolveStep at h
    cases v with
    | some e =>
      simp only [] at h
      obtain ⟨k, hk⟩ := hfst e st
      exact ⟨k, by cases h; rw [← hk]⟩
    | none =>
      cases r with
      | some e =>
        simp only [] at h
        obtain ⟨k, hk⟩ := hfst e st
        exact ⟨k, by cases h; rw [← hk]⟩
      | none =>
        cases c with
        | some resp => simp at h
        | none =>
          cases u with
          | ok resp => simp at h
          | error e =>
            simp only [] at h
            obtain ⟨k, hk⟩ := hfst e
              { st with total_queries := st.total_queries + 1,
                        cache_misses := st.cache_misses + 1 }
            exact ⟨k, by cases h; rw [← hk]⟩
  · intro k st
    rw [handleResolveException_fst]
  · intro m st
    rw [handleResolveException_fst]

/-- Claim C10 witness: a plain RuntimeError raised during resolution leaves
resolve as a typed ServiceUnavailableError, and each known kind passes the
handler unchanged. -/
theorem resolve_raises_only_typed_witness :
    ((resolveStep none none none (Except.error (RaisedException.otherExc "boom"))
        initialStats).1 =
      Except.error (RaisedException.proxy DNSProxyErrorKind.serviceUnavailable)) ∧
    (∃ k, RaisedException.proxy DNSProxyErrorKind.serviceUnavailable =
      RaisedException.proxy k) ∧
    (handleResolveException (RaisedException.proxy DNSProxyErrorKind.upstreamTimeout)
        initialStats).1 =
      RaisedException.proxy DNSProxyErrorKind.upstreamTimeout ∧
    (handleResolveException (RaisedException.otherExc "boom") initialStats).1 =
      RaisedException.proxy DNSProxyErrorKind.serviceUnavailable :=
  ⟨rfl,
    resolve_raises_only_typed.1 none none none
      (Except.error (RaisedException.otherExc "boom")) initialStats
      (RaisedException.proxy DNSProxyErrorKind.serviceUnavailable) rfl,
    resolve_raises_only_typed.2.1 DNSProxyErrorKind.upstreamTimeout initialStats,
    resolve_raises_only_typed.2.2 "boom" initialStats⟩

end DnsProxy
